import Mathlib

/-!
Verification development for the LiveAtlas update pipeline.

The definitions below are a shallow embedding of the update classifier
(buildUpdates and its helpers) and of the store mutations
(SET_MARKER_SETS, ADD_MARKER_SET_UPDATES, ADD_TILE_UPDATES, ADD_CHAT,
the POP mutations, SET_PLAYERS_ASYNC, SYNC_PLAYERS, SET_CURRENT_MAP)
of the repository.  JavaScript Map objects are embedded as ordered
association lists with insertion-order semantics; JavaScript Set objects
that are only iterated are embedded as lists in insertion order; wire
numbers are embedded as rationals, timestamps as naturals; absent JSON
fields are embedded as Option.none; a thrown exception is embedded as
Except.error.
-/

set_option maxHeartbeats 1000000

/-! ## JavaScript Map and truthiness embedding -/

/-- Ordered association list standing for a JavaScript Map. -/
abbrev JsMap (α : Type) := List (String × α)

/-- Map.has: some entry carries the key. -/
def mapHas {α : Type} (m : JsMap α) (k : String) : Bool :=
  m.any (fun p => p.1 == k)

/-- Map.get: value of the first entry carrying the key, none when absent. -/
def mapGet {α : Type} (m : JsMap α) (k : String) : Option α :=
  (m.find? (fun p => p.1 == k)).map (fun p => p.2)

/-- Map.set: replace the value in place when the key exists, otherwise
append a new entry, as a JavaScript Map does. -/
def mapSet {α : Type} (m : JsMap α) (k : String) (v : α) : JsMap α :=
  if mapHas m k then m.map (fun p => if p.1 == k then (k, v) else p)
  else m ++ [(k, v)]

/-- Map.delete: drop the entry carrying the key. -/
def mapDelete {α : Type} (m : JsMap α) (k : String) : JsMap α :=
  m.filter (fun p => !(p.1 == k))

/-- Truthiness of an optional string: undefined and the empty string are
falsy. -/
def truthyS : Option String → Bool
  | none => false
  | some s => !(s == "")

/-- Truthiness of an optional timestamp: undefined and 0 are falsy. -/
def truthyN : Option Nat → Bool
  | none => false
  | some n => !(n == 0)

/-- Comparison entry.timestamp < watermark: comparing undefined with a
number is false in JavaScript. -/
def tsLt : Option Nat → Nat → Bool
  | none, _ => false
  | some t, w => t < w

/-- JavaScript x || default for an optional string field. -/
def jsStr (o : Option String) (d : String) : String :=
  match o with
  | some s => if s == "" then d else s
  | none => d

/-- JavaScript x || undefined for an optional string field. -/
def jsStrOrNone (o : Option String) : Option String :=
  match o with
  | some s => if s == "" then none else some s
  | none => none

/-- JavaScript x || default for an optional numeric field: 0 is falsy. -/
def jsRat (o : Option Rat) (d : Rat) : Rat :=
  match o with
  | some v => if v == 0 then d else v
  | none => d

/-- JavaScript x || false for an optional boolean field. -/
def jsBool (o : Option Bool) : Bool :=
  match o with
  | some b => b
  | none => false

/-- JavaScript x || undefined for an optional boolean field: false is
falsy, so it collapses to undefined. -/
def jsBoolOrNone (o : Option Bool) : Option Bool :=
  match o with
  | some b => if b then some true else none
  | none => none

/-- Zoom-bound rule of the source: keep the value only when it is defined
and greater than -1. -/
def zoomBound (o : Option Rat) : Option Rat :=
  match o with
  | some v => if v > -1 then some v else none
  | none => none

/-! ## Wire records and the data model -/

/-- One raw update record of the polled batch.  Every field is optional,
as in the untyped JSON.  The wire fields x, y and z carry a number for
markers and circles and an array for areas and lines, hence the sum. -/
structure JsonEntry where
  type : Option String := none
  timestamp : Option Nat := none
  id : Option String := none
  set : Option String := none
  msg : Option String := none
  ctype : Option String := none
  message : Option String := none
  source : Option String := none
  account : Option String := none
  playerName : Option String := none
  channel : Option String := none
  name : Option String := none
  label : Option String := none
  hide : Option Bool := none
  layerprio : Option Rat := none
  showlabels : Option Bool := none
  minzoom : Option Rat := none
  maxzoom : Option Rat := none
  markup : Option Bool := none
  desc : Option String := none
  icon : Option String := none
  dim : Option String := none
  x : Option (Sum Rat (List Rat)) := none
  y : Option (Sum Rat (List Rat)) := none
  z : Option (Sum Rat (List Rat)) := none
  ybottom : Option Rat := none
  ytop : Option Rat := none
  xr : Option Rat := none
  zr : Option Rat := none
  color : Option String := none
  fillcolor : Option String := none
  opacity : Option Rat := none
  fillopacity : Option Rat := none
  weight : Option Rat := none
deriving Repr, DecidableEq

/-- Read a wire coordinate expected to be a number; an array in a numeric
position is embedded by the default (never reached by the claims). -/
def numField (o : Option (Sum Rat (List Rat))) (d : Rat) : Rat :=
  match o with
  | some (Sum.inl v) => if v == 0 then d else v
  | some (Sum.inr _) => d
  | none => d

/-- Read a wire coordinate expected to be an array; any array, empty
included, is truthy in JavaScript. -/
def listField (o : Option (Sum Rat (List Rat))) (d : List Rat) : List Rat :=
  match o with
  | some (Sum.inl _) => d
  | some (Sum.inr l) => l
  | none => d

structure Coordinate where
  x : Rat
  y : Rat
  z : Rat
deriving Repr, DecidableEq

structure DynmapMarker where
  label : String
  location : Coordinate
  dimensions : Sum (Rat × Rat) (List String)
  icon : String
  isHTML : Bool
  minZoom : Option Rat
  maxZoom : Option Rat
  popupContent : Option String
deriving Repr, DecidableEq

structure DynmapAreaStyle where
  color : String
  opacity : Rat
  weight : Rat
  fillColor : String
  fillOpacity : Rat
deriving Repr, DecidableEq

structure DynmapArea where
  style : DynmapAreaStyle
  label : String
  isHTML : Bool
  x : List Rat
  y : Rat × Rat
  z : List Rat
  minZoom : Option Rat
  maxZoom : Option Rat
  popupContent : Option String
deriving Repr, DecidableEq

structure DynmapLineStyle where
  color : String
  opacity : Rat
  weight : Rat
deriving Repr, DecidableEq

structure DynmapLine where
  x : List Rat
  y : List Rat
  z : List Rat
  style : DynmapLineStyle
  label : String
  isHTML : Bool
  minZoom : Option Rat
  maxZoom : Option Rat
  popupContent : Option String
deriving Repr, DecidableEq

structure DynmapCircleStyle where
  fillColor : String
  fillOpacity : Rat
  color : String
  opacity : Rat
  weight : Rat
deriving Repr, DecidableEq

structure DynmapCircle where
  location : Coordinate
  radius : Rat × Rat
  style : DynmapCircleStyle
  label : String
  isHTML : Bool
  minZoom : Option Rat
  maxZoom : Option Rat
  popupContent : Option String
deriving Repr, DecidableEq

/-- Scalar fields of a marker set, as built by buildMarkerSet (the entity
maps are added separately). -/
structure DynmapMarkerSetProps where
  id : String
  label : String
  hidden : Bool
  priority : Rat
  showLabels : Option Bool
  minZoom : Option Rat
  maxZoom : Option Rat
deriving Repr, DecidableEq

structure DynmapMarkerSet where
  id : String
  label : String
  hidden : Bool
  priority : Rat
  showLabels : Option Bool
  minZoom : Option Rat
  maxZoom : Option Rat
  markers : JsMap DynmapMarker
  areas : JsMap DynmapArea
  circles : JsMap DynmapCircle
  lines : JsMap DynmapLine
deriving Repr, DecidableEq

/-- One classified update record.  The source keeps the payload untyped;
here each category list carries its own payload type. -/
structure DynmapUpdate (α : Type) where
  id : String
  removed : Bool
  payload : Option α := none
deriving Repr, DecidableEq

/-- Per-set delta bucket produced by the classifier. -/
structure DynmapMarkerSetUpdates where
  areaUpdates : List (DynmapUpdate DynmapArea) := []
  markerUpdates : List (DynmapUpdate DynmapMarker) := []
  lineUpdates : List (DynmapUpdate DynmapLine) := []
  circleUpdates : List (DynmapUpdate DynmapCircle) := []
  removed : Bool := false
  payload : Option DynmapMarkerSetProps := none
deriving Repr, DecidableEq

/-- Pending queue entry of one marker set: the four replay logs. -/
structure PendingSetUpdates where
  markerUpdates : List (DynmapUpdate DynmapMarker) := []
  areaUpdates : List (DynmapUpdate DynmapArea) := []
  circleUpdates : List (DynmapUpdate DynmapCircle) := []
  lineUpdates : List (DynmapUpdate DynmapLine) := []
deriving Repr, DecidableEq

structure DynmapTileUpdate where
  name : String
  timestamp : Nat
deriving Repr, DecidableEq

/-- One chat event; the source uses the type tags chat, playerjoin and
playerleave. -/
structure DynmapChat where
  type : String
  source : Option String := none
  playerAccount : Option String := none
  playerName : Option String := none
  message : Option String := none
  timestamp : Nat
  channel : Option String := none
deriving Repr, DecidableEq

structure PlayerLocation where
  x : Rat
  y : Rat
  z : Rat
  world : Option String
deriving Repr, DecidableEq

/-- A player registry entry; the fake test players carry no hidden field,
hence the Option. -/
structure DynmapPlayer where
  account : String
  health : Rat
  armor : Rat
  name : String
  sort : Rat
  hidden : Option Bool
  location : PlayerLocation
deriving Repr, DecidableEq

/-- Classifier output. -/
structure DynmapUpdates where
  markerSets : JsMap DynmapMarkerSetUpdates
  tiles : List DynmapTileUpdate
  chat : List DynmapChat
deriving Repr, DecidableEq

/-- Per-reason drop counters of one classification run. -/
structure Dropped where
  stale : Nat := 0
  noSet : Nat := 0
  noId : Nat := 0
  unknownType : Nat := 0
  unknownCType : Nat := 0
  incomplete : Nat := 0
  notImplemented : Nat := 0
deriving Repr, DecidableEq

/-! ## Payload builders -/

def buildMarkerSet (id : String) (data : JsonEntry) : DynmapMarkerSetProps :=
  { id := id
    label := jsStr data.label "Unnamed set"
    hidden := jsBool data.hide
    priority := jsRat data.layerprio 0
    showLabels := jsBoolOrNone data.showlabels
    minZoom := zoomBound data.minzoom
    maxZoom := zoomBound data.maxzoom }

def buildMarker (marker : JsonEntry) : DynmapMarker :=
  { label := jsStr marker.label ""
    location :=
      { x := numField marker.x 0
        y := numField marker.y 0
        z := numField marker.z 0 }
    dimensions :=
      match marker.dim with
      | some d => if d == "" then Sum.inl (16, 16) else Sum.inr (d.splitOn "x")
      | none => Sum.inl (16, 16)
    icon := jsStr marker.icon "default"
    isHTML := jsBool marker.markup
    minZoom := zoomBound marker.minzoom
    maxZoom := zoomBound marker.maxzoom
    popupContent := jsStrOrNone marker.desc }

def buildArea (area : JsonEntry) : DynmapArea :=
  { style :=
      { color := jsStr area.color "#ff0000"
        opacity := jsRat area.opacity 1
        weight := jsRat area.weight 1
        fillColor := jsStr area.fillcolor "#ff0000"
        fillOpacity := jsRat area.fillopacity 0 }
    label := jsStr area.label ""
    isHTML := jsBool area.markup
    x := listField area.x [0, 0]
    y := (jsRat area.ybottom 0, jsRat area.ytop 0)
    z := listField area.z [0, 0]
    minZoom := zoomBound area.minzoom
    maxZoom := zoomBound area.maxzoom
    popupContent := jsStrOrNone area.desc }

def buildLine (line : JsonEntry) : DynmapLine :=
  { x := listField line.x [0, 0]
    y := listField line.y [0, 0]
    z := listField line.z [0, 0]
    style :=
      { color := jsStr line.color "#ff0000"
        opacity := jsRat line.opacity 1
        weight := jsRat line.weight 1 }
    label := jsStr line.label ""
    isHTML := jsBool line.markup
    minZoom := zoomBound line.minzoom
    maxZoom := zoomBound line.maxzoom
    popupContent := jsStrOrNone line.desc }

def buildCircle (circle : JsonEntry) : DynmapCircle :=
  { location :=
      { x := numField circle.x 0
        y := numField circle.y 0
        z := numField circle.z 0 }
    radius := (jsRat circle.xr 0, jsRat circle.zr 0)
    style :=
      { fillColor := jsStr circle.fillcolor "#ff0000"
        fillOpacity := jsRat circle.fillopacity 0
        color := jsStr circle.color "#ff0000"
        opacity := jsRat circle.opacity 1
        weight := jsRat circle.weight 1 }
    label := jsStr circle.label ""
    isHTML := jsBool circle.markup
    minZoom := zoomBound circle.minzoom
    maxZoom := zoomBound circle.maxzoom
    popupContent := jsStrOrNone circle.desc }

/-! ## The update classifier (buildUpdates) -/

/-- Accumulator of the classification loop. -/
structure BuildAcc where
  updates : DynmapUpdates
  dropped : Dropped
  accepted : Nat
deriving Repr, DecidableEq

def initAcc : BuildAcc :=
  { updates := { markerSets := [], tiles := [], chat := [] }
    dropped := {}
    accepted := 0 }

def dropStale (acc : BuildAcc) : BuildAcc :=
  { acc with dropped := { acc.dropped with stale := acc.dropped.stale + 1 } }

def dropNoSet (acc : BuildAcc) : BuildAcc :=
  { acc with dropped := { acc.dropped with noSet := acc.dropped.noSet + 1 } }

def dropNoId (acc : BuildAcc) : BuildAcc :=
  { acc with dropped := { acc.dropped with noId := acc.dropped.noId + 1 } }

def dropUnknownType (acc : BuildAcc) : BuildAcc :=
  { acc with dropped := { acc.dropped with unknownType := acc.dropped.unknownType + 1 } }

def dropUnknownCType (acc : BuildAcc) : BuildAcc :=
  { acc with dropped := { acc.dropped with unknownCType := acc.dropped.unknownCType + 1 } }

def dropIncomplete (acc : BuildAcc) : BuildAcc :=
  { acc with dropped := { acc.dropped with incomplete := acc.dropped.incomplete + 1 } }

def dropNotImplemented (acc : BuildAcc) : BuildAcc :=
  { acc with dropped := { acc.dropped with notImplemented := acc.dropped.notImplemented + 1 } }

/-- Empty delta bucket, as lazily materialised by the classifier. -/
def emptyBucket : DynmapMarkerSetUpdates := {}

/-- Kernel-evaluable embedding of String.startsWith of the source. -/
def strStartsWith (s pre : String) : Bool := pre.data.isPrefixOf s.data

/-- Kernel-evaluable embedding of String.endsWith of the source. -/
def strEndsWith (s suf : String) : Bool := suf.data.isSuffixOf s.data

/-- Accepted component record: dispatch on the message kind and append to
the bucket of the owning set. -/
def componentAccept (acc : BuildAcc) (s idStr msg : String) (entry : JsonEntry) : BuildAcc :=
  let ms := (mapGet acc.updates.markerSets s).getD emptyBucket
  let removed := strEndsWith msg "deleted"
  let ms1 :=
    if strStartsWith msg "set" then
      { ms with removed := removed
                payload := if removed then none else some (buildMarkerSet s entry) }
    else if strStartsWith msg "marker" then
      { ms with markerUpdates := ms.markerUpdates ++
          [{ id := idStr, removed := removed
             payload := if removed then none else some (buildMarker entry) }] }
    else if strStartsWith msg "area" then
      { ms with areaUpdates := ms.areaUpdates ++
          [{ id := idStr, removed := removed
             payload := if removed then none else some (buildArea entry) }] }
    else if strStartsWith msg "circle" then
      { ms with circleUpdates := ms.circleUpdates ++
          [{ id := idStr, removed := removed
             payload := if removed then none else some (buildCircle entry) }] }
    else if strStartsWith msg "line" then
      { ms with lineUpdates := ms.lineUpdates ++
          [{ id := idStr, removed := removed
             payload := if removed then none else some (buildLine entry) }] }
    else ms
  { acc with
    updates := { acc.updates with markerSets := mapSet acc.updates.markerSets s ms1 }
    accepted := acc.accepted + 1 }

/-- Component branch of the classifier.  Reading startsWith of a missing
msg field throws in the source, embedded as Except.error. -/
def processComponent (lastUpdate : Nat) (acc : BuildAcc) (entry : JsonEntry) :
    Except String BuildAcc :=
  if (lastUpdate != 0) && tsLt entry.timestamp lastUpdate then
    Except.ok (dropStale acc)
  else if !(truthyS entry.id) then
    Except.ok (dropNoId acc)
  else
    match entry.msg with
    | none => Except.error "TypeError: entry.msg is undefined"
    | some msg =>
      let set := if strStartsWith msg "set" then entry.id else entry.set
      if !(truthyS set) then Except.ok (dropNoSet acc)
      else if entry.ctype ≠ some "markers" then Except.ok (dropUnknownCType acc)
      else Except.ok (componentAccept acc (set.getD "") (entry.id.getD "") msg entry)

/-- Chat branch of the classifier. -/
def processChat (lastUpdate : Nat) (acc : BuildAcc) (entry : JsonEntry) :
    Except String BuildAcc :=
  if !(truthyS entry.message) || !(truthyN entry.timestamp) then
    Except.ok (dropIncomplete acc)
  else if tsLt entry.timestamp lastUpdate then
    Except.ok (dropStale acc)
  else if entry.source ≠ some "player" ∧ entry.source ≠ some "web" then
    Except.ok (dropNotImplemented acc)
  else
    Except.ok { acc with updates := { acc.updates with chat := acc.updates.chat ++
      [{ type := "chat"
         source := jsStrOrNone entry.source
         playerAccount := jsStrOrNone entry.account
         playerName := jsStrOrNone entry.playerName
         message := some (jsStr entry.message "")
         timestamp := entry.timestamp.getD 0
         channel := jsStrOrNone entry.channel }] } }

/-- Playerjoin branch of the classifier. -/
def processPlayerJoin (lastUpdate : Nat) (acc : BuildAcc) (entry : JsonEntry) :
    Except String BuildAcc :=
  if !(truthyS entry.account) || !(truthyN entry.timestamp) then
    Except.ok (dropIncomplete acc)
  else if tsLt entry.timestamp lastUpdate then
    Except.ok (dropStale acc)
  else
    Except.ok { acc with updates := { acc.updates with chat := acc.updates.chat ++
      [{ type := "playerjoin"
         playerAccount := entry.account
         playerName := some (jsStr entry.playerName "")
         timestamp := entry.timestamp.getD 0 }] } }

/-- Playerquit branch of the classifier; the source emits the tag
playerleave for it. -/
def processPlayerQuit (lastUpdate : Nat) (acc : BuildAcc) (entry : JsonEntry) :
    Except String BuildAcc :=
  if !(truthyS entry.account) || !(truthyN entry.timestamp) then
    Except.ok (dropIncomplete acc)
  else if tsLt entry.timestamp lastUpdate then
    Except.ok (dropStale acc)
  else
    Except.ok { acc with updates := { acc.updates with chat := acc.updates.chat ++
      [{ type := "playerleave"
         playerAccount := entry.account
         playerName := some (jsStr entry.playerName "")
         timestamp := entry.timestamp.getD 0 }] } }

/-- Tile branch of the classifier; tiles also count as accepted. -/
def processTile (lastUpdate : Nat) (acc : BuildAcc) (entry : JsonEntry) :
    Except String BuildAcc :=
  if !(truthyS entry.name) || !(truthyN entry.timestamp) then
    Except.ok (dropIncomplete acc)
  else if (lastUpdate != 0) && tsLt entry.timestamp lastUpdate then
    Except.ok (dropStale acc)
  else
    Except.ok { acc with
      updates := { acc.updates with tiles := acc.updates.tiles ++
        [{ name := entry.name.getD "", timestamp := entry.timestamp.getD 0 }] }
      accepted := acc.accepted + 1 }

/-- One iteration of the classification loop: dispatch on the type tag. -/
def processEntry (lastUpdate : Nat) (acc : BuildAcc) (entry : JsonEntry) :
    Except String BuildAcc :=
  if entry.type = some "component" then processComponent lastUpdate acc entry
  else if entry.type = some "chat" then processChat lastUpdate acc entry
  else if entry.type = some "playerjoin" then processPlayerJoin lastUpdate acc entry
  else if entry.type = some "playerquit" then processPlayerQuit lastUpdate acc entry
  else if entry.type = some "tile" then processTile lastUpdate acc entry
  else Except.ok (dropUnknownType acc)

/-- The classification loop over the batch; a thrown error aborts it. -/
def buildUpdatesLoop (lastUpdate : Nat) : List JsonEntry → BuildAcc → Except String BuildAcc
  | [], acc => Except.ok acc
  | e :: rest, acc =>
    match processEntry lastUpdate acc e with
    | Except.error err => Except.error err
    | Except.ok acc1 => buildUpdatesLoop lastUpdate rest acc1

/-- Classification before the final chat sort. -/
def buildUpdatesRaw (lastUpdate : Nat) (data : List JsonEntry) : Except String BuildAcc :=
  buildUpdatesLoop lastUpdate data initAcc

/-- Stable insertion step of the final chat sort: an element moves ahead
only of strictly older events, so equal timestamps keep arrival order. -/
def chatInsert (c : DynmapChat) : List DynmapChat → List DynmapChat
  | [] => [c]
  | d :: rest => if d.timestamp > c.timestamp then d :: chatInsert c rest else c :: d :: rest

/-- Stable sort of the chat list by timestamp, newest first, embedding the
stable Array.prototype.sort of the source. -/
def chatSort : List DynmapChat → List DynmapChat
  | [] => []
  | c :: rest => chatInsert c (chatSort rest)

/-- The classifier buildUpdates: classify every record, then sort the chat
list newest first.  The drop counters are part of the observable result
(the source logs them to the caller). -/
def buildUpdates (lastUpdate : Nat) (data : List JsonEntry) :
    Except String (DynmapUpdates × Dropped) :=
  match buildUpdatesRaw lastUpdate data with
  | Except.error err => Except.error err
  | Except.ok acc =>
    Except.ok ({ acc.updates with chat := chatSort acc.updates.chat }, acc.dropped)

/-! ## The store state and its mutations -/

/-- The store fields the mutations under study touch.  World objects are
embedded by an identity tag, map objects by Unit; the chat history field
stands for state.chat.messages of the source. -/
structure State where
  worlds : JsMap Nat := []
  maps : JsMap Unit := []
  players : JsMap DynmapPlayer := []
  markerSets : JsMap DynmapMarkerSet := []
  chatMessages : List DynmapChat := []
  pendingSetUpdates : JsMap PendingSetUpdates := []
  pendingTileUpdates : List DynmapTileUpdate := []
  currentWorld : Option Nat := none
  currentMap : Option Unit := none
deriving Repr, DecidableEq

def emptyPending : PendingSetUpdates := {}

/-- SET_MARKER_SETS: replace the marker sets and rebuild the pending
queues, one fresh empty entry per set. -/
def SET_MARKER_SETS (st : State) (markerSets : JsMap DynmapMarkerSet) : State :=
  { st with
    markerSets := markerSets
    pendingSetUpdates := markerSets.map (fun entry => (entry.1, emptyPending)) }

/-- Marker set created by ADD_MARKER_SET_UPDATES from a bucket payload:
the scalar fields of the payload with empty entity maps. -/
def newSetFromPayload (key : String) (payload : DynmapMarkerSetProps) : DynmapMarkerSet :=
  { id := key
    showLabels := payload.showLabels
    minZoom := payload.minZoom
    maxZoom := payload.maxZoom
    priority := payload.priority
    label := payload.label
    hidden := payload.hidden
    markers := []
    areas := []
    circles := []
    lines := [] }

/-- Apply one category of entity updates to the matching entity map:
removal deletes the id, otherwise insert-or-replace.  The source stores
the payload through an unchecked cast; a missing payload (never produced
by the classifier for a non-removed update) is embedded by the given
default. -/
def applyEntityUpdates {α : Type} (d : α) (m : JsMap α) (us : List (DynmapUpdate α)) : JsMap α :=
  us.foldl
    (fun m u => if u.removed then mapDelete m u.id else mapSet m u.id (u.payload.getD d))
    m

def defaultMarker : DynmapMarker :=
  { label := "", location := { x := 0, y := 0, z := 0 }, dimensions := Sum.inl (16, 16)
    icon := "default", isHTML := false, minZoom := none, maxZoom := none, popupContent := none }

def defaultArea : DynmapArea :=
  { style := { color := "#ff0000", opacity := 1, weight := 1, fillColor := "#ff0000", fillOpacity := 0 }
    label := "", isHTML := false, x := [0, 0], y := (0, 0), z := [0, 0]
    minZoom := none, maxZoom := none, popupContent := none }

def defaultCircle : DynmapCircle :=
  { location := { x := 0, y := 0, z := 0 }, radius := (0, 0)
    style := { fillColor := "#ff0000", fillOpacity := 0, color := "#ff0000", opacity := 1, weight := 1 }
    label := "", isHTML := false, minZoom := none, maxZoom := none, popupContent := none }

def defaultLine : DynmapLine :=
  { x := [0, 0], y := [0, 0], z := [0, 0]
    style := { color := "#ff0000", opacity := 1, weight := 1 }
    label := "", isHTML := false, minZoom := none, maxZoom := none, popupContent := none }

/-- Steps of ADD_MARKER_SET_UPDATES for one bucket of a set known to the
model: delete set and queue together on removal, otherwise overwrite the
scalar fields when a payload is present, apply every entity update to the
authoritative maps and append the same updates to the pending queue.  A
missing pending queue makes the final queue write throw in the source,
embedded as Except.error. -/
def addExistingSetUpdate (st : State) (key : String) (u : DynmapMarkerSetUpdates) :
    Except String State :=
  if u.removed then
    Except.ok { st with
      markerSets := mapDelete st.markerSets key
      pendingSetUpdates := mapDelete st.pendingSetUpdates key }
  else
    match mapGet st.markerSets key with
    | none => Except.ok st
    | some set0 =>
      let set1 :=
        match u.payload with
        | some payload =>
          { set0 with
            showLabels := payload.showLabels
            minZoom := payload.minZoom
            maxZoom := payload.maxZoom
            priority := payload.priority
            label := payload.label
            hidden := payload.hidden }
        | none => set0
      let set2 :=
        { set1 with
          markers := applyEntityUpdates defaultMarker set1.markers u.markerUpdates
          areas := applyEntityUpdates defaultArea set1.areas u.areaUpdates
          circles := applyEntityUpdates defaultCircle set1.circles u.circleUpdates
          lines := applyEntityUpdates defaultLine set1.lines u.lineUpdates }
      match mapGet st.pendingSetUpdates key with
      | none => Except.error "TypeError: pending queue is undefined"
      | some q =>
        Except.ok { st with
          markerSets := mapSet st.markerSets key set2
          pendingSetUpdates := mapSet st.pendingSetUpdates key
            { markerUpdates := q.markerUpdates ++ u.markerUpdates
              areaUpdates := q.areaUpdates ++ u.areaUpdates
              circleUpdates := q.circleUpdates ++ u.circleUpdates
              lineUpdates := q.lineUpdates ++ u.lineUpdates } }

/-- One iteration of ADD_MARKER_SET_UPDATES: create the set (with a fresh
queue) from the bucket payload when it is missing, skip the bucket with a
logged anomaly when it is missing and carries no payload. -/
def addOneMarkerSetUpdate (st : State) (key : String) (u : DynmapMarkerSetUpdates) :
    Except String State :=
  if mapHas st.markerSets key then addExistingSetUpdate st key u
  else
    match u.payload with
    | some payload =>
      addExistingSetUpdate
        { st with
          markerSets := mapSet st.markerSets key (newSetFromPayload key payload)
          pendingSetUpdates := mapSet st.pendingSetUpdates key emptyPending }
        key u
    | none => Except.ok st

def addMarkerSetUpdatesGo : List (String × DynmapMarkerSetUpdates) → State → Except String State
  | [], st => Except.ok st
  | (key, u) :: rest, st =>
    match addOneMarkerSetUpdate st key u with
    | Except.error err => Except.error err
    | Except.ok st1 => addMarkerSetUpdatesGo rest st1

/-- ADD_MARKER_SET_UPDATES: fold the classifier buckets into the model in
insertion order. -/
def ADD_MARKER_SET_UPDATES (st : State) (updates : JsMap DynmapMarkerSetUpdates) :
    Except String State :=
  addMarkerSetUpdatesGo updates st

/-- ADD_TILE_UPDATES: append to the global pending tile list. -/
def ADD_TILE_UPDATES (st : State) (updates : List DynmapTileUpdate) : State :=
  { st with pendingTileUpdates := st.pendingTileUpdates ++ updates }

/-- ADD_CHAT: unshift the new chat events onto the history. -/
def ADD_CHAT (st : State) (chat : List DynmapChat) : State :=
  { st with chatMessages := chat ++ st.chatMessages }

/-- POP_MARKER_UPDATES: for an existing set, splice the oldest entries off
its pending marker queue; the non-null queue lookup throws if the queue is
missing. -/
def POP_MARKER_UPDATES (st : State) (markerSet : String) (amount : Nat) : Except String State :=
  if !(mapHas st.markerSets markerSet) then Except.ok st
  else
    match mapGet st.pendingSetUpdates markerSet with
    | none => Except.error "TypeError: pending queue is undefined"
    | some q =>
      let q1 := { q with markerUpdates := q.markerUpdates.drop amount }
      Except.ok { st with pendingSetUpdates := mapSet st.pendingSetUpdates markerSet q1 }

/-- POP_AREA_UPDATES, as POP_MARKER_UPDATES for the area queue. -/
def POP_AREA_UPDATES (st : State) (markerSet : String) (amount : Nat) : Except String State :=
  if !(mapHas st.markerSets markerSet) then Except.ok st
  else
    match mapGet st.pendingSetUpdates markerSet with
    | none => Except.error "TypeError: pending queue is undefined"
    | some q =>
      let q1 := { q with areaUpdates := q.areaUpdates.drop amount }
      Except.ok { st with pendingSetUpdates := mapSet st.pendingSetUpdates markerSet q1 }

/-- POP_CIRCLE_UPDATES, as POP_MARKER_UPDATES for the circle queue. -/
def POP_CIRCLE_UPDATES (st : State) (markerSet : String) (amount : Nat) : Except String State :=
  if !(mapHas st.markerSets markerSet) then Except.ok st
  else
    match mapGet st.pendingSetUpdates markerSet with
    | none => Except.error "TypeError: pending queue is undefined"
    | some q =>
      let q1 := { q with circleUpdates := q.circleUpdates.drop amount }
      Except.ok { st with pendingSetUpdates := mapSet st.pendingSetUpdates markerSet q1 }

/-- POP_LINE_UPDATES, as POP_MARKER_UPDATES for the line queue. -/
def POP_LINE_UPDATES (st : State) (markerSet : String) (amount : Nat) : Except String State :=
  if !(mapHas st.markerSets markerSet) then Except.ok st
  else
    match mapGet st.pendingSetUpdates markerSet with
    | none => Except.error "TypeError: pending queue is undefined"
    | some q =>
      let q1 := { q with lineUpdates := q.lineUpdates.drop amount }
      Except.ok { st with pendingSetUpdates := mapSet st.pendingSetUpdates markerSet q1 }

/-- POP_TILE_UPDATES: splice the oldest entries off the global tile queue. -/
def POP_TILE_UPDATES (st : State) (amount : Nat) : State :=
  { st with pendingTileUpdates := st.pendingTileUpdates.drop amount }

/-- Upsert of one player snapshot: mutate the existing entry in place
(its account key is untouched), otherwise insert a fresh entry. -/
def upsertPlayer (reg : JsMap DynmapPlayer) (p : DynmapPlayer) : JsMap DynmapPlayer :=
  match mapGet reg p.account with
  | some existing =>
    mapSet reg p.account
      { existing with
        health := p.health
        armor := p.armor
        location := p.location
        hidden := p.hidden
        name := p.name
        sort := p.sort }
  | none =>
    mapSet reg p.account
      { account := p.account
        health := p.health
        armor := p.armor
        location := p.location
        name := p.name
        sort := p.sort
        hidden := p.hidden }

/-- Loop of SET_PLAYERS_ASYNC: upsert snapshots in iteration order,
removing each processed snapshot from the input, and stop after the
tenth. -/
def setPlayersAsyncGo : JsMap DynmapPlayer → List DynmapPlayer → Nat →
    JsMap DynmapPlayer × List DynmapPlayer
  | reg, [], _ => (reg, [])
  | reg, p :: rest, count =>
    let reg1 := upsertPlayer reg p
    if count + 1 ≥ 10 then (reg1, rest) else setPlayersAsyncGo reg1 rest (count + 1)

/-- SET_PLAYERS_ASYNC: merge at most 10 snapshots into the registry and
return the remaining input. -/
def SET_PLAYERS_ASYNC (reg : JsMap DynmapPlayer) (players : List DynmapPlayer) :
    JsMap DynmapPlayer × List DynmapPlayer :=
  setPlayersAsyncGo reg players 0

/-- Loop of SYNC_PLAYERS over the registry entries: delete every entry
whose account the keep list does not carry. -/
def syncPlayersGo (keep : List String) : List (String × DynmapPlayer) →
    JsMap DynmapPlayer → JsMap DynmapPlayer
  | [], reg => reg
  | (key, player) :: rest, reg =>
    syncPlayersGo keep rest (if keep.contains player.account then reg else mapDelete reg key)

/-- SYNC_PLAYERS: prune the registry against the keep set. -/
def SYNC_PLAYERS (reg : JsMap DynmapPlayer) (keep : List String) : JsMap DynmapPlayer :=
  syncPlayersGo keep reg reg

/-- SET_CURRENT_MAP: reject unknown world or map names with a thrown
RangeError; on a world change clear the marker sets, the pending set
queues and the pending tile list. -/
def SET_CURRENT_MAP (st : State) (worldName mapName0 : String) : Except String State :=
  let mapName := worldName ++ "_" ++ mapName0
  if !(mapHas st.worlds worldName) then Except.error ("RangeError: Unknown world " ++ worldName)
  else if !(mapHas st.maps mapName) then Except.error ("RangeError: Unknown map " ++ mapName)
  else
    let newWorld := mapGet st.worlds worldName
    let st1 :=
      if st.currentWorld ≠ newWorld then
        { st with
          currentWorld := newWorld
          markerSets := []
          pendingSetUpdates := []
          pendingTileUpdates := [] }
      else st
    Except.ok { st1 with currentMap := mapGet st1.maps mapName }

/-- Reconciliation of one classified batch: marker-set deltas, then tile
deltas, then chat events. -/
def applyBatch (st : State) (u : DynmapUpdates) : Except String State :=
  match ADD_MARKER_SET_UPDATES st u.markerSets with
  | Except.error err => Except.error err
  | Except.ok st1 => Except.ok (ADD_CHAT (ADD_TILE_UPDATES st1 u.tiles) u.chat)

/-! ## Helper lemmas on the map embedding -/

theorem mapHas_cons {α : Type} (p : String × α) (m : JsMap α) (q : String) :
    mapHas (p :: m) q = ((p.1 == q) || mapHas m q) := rfl

theorem mapHas_append {α : Type} (m1 m2 : JsMap α) (q : String) :
    mapHas (m1 ++ m2) q = (mapHas m1 q || mapHas m2 q) := by
  simp [mapHas, List.any_append]

theorem keys_mapReplace {α : Type} (m : JsMap α) (k : String) (v : α) :
    (m.map (fun p => if p.1 == k then (k, v) else p)).map Prod.fst = m.map Prod.fst := by
  induction m with
  | nil => rfl
  | cons p m ih =>
    cases hp : p.1 == k with
    | true =>
      have hpk : p.1 = k := eq_of_beq hp
      simp only [List.map_cons, hp, if_true, ih, hpk]
      simp
    | false => simp only [List.map_cons, hp, Bool.false_eq_true, if_false, ih]

theorem mapHas_eq_keys {α : Type} (m : JsMap α) (q : String) :
    mapHas m q = (m.map Prod.fst).any (fun a => a == q) := by
  induction m with
  | nil => rfl
  | cons p m ih =>
    simp only [mapHas, List.any_cons, List.map_cons] at *
    rw [ih]

theorem mapHas_mapSet {α : Type} (m : JsMap α) (k q : String) (v : α) :
    mapHas (mapSet m k v) q = ((k == q) || mapHas m q) := by
  unfold mapSet
  cases h : mapHas m k with
  | true =>
    simp only [if_true]
    rw [mapHas_eq_keys, keys_mapReplace, ← mapHas_eq_keys]
    cases hkq : k == q with
    | true =>
      have hq : mapHas m q = true := by rw [← eq_of_beq hkq]; exact h
      simp [hq]
    | false => simp
  | false =>
    simp only [Bool.false_eq_true, if_false]
    rw [mapHas_append]
    have h1 : mapHas [(k, v)] q = ((k == q) || false) := rfl
    rw [h1]
    cases hkq : k == q <;> cases hm : mapHas m q <;> simp

theorem mapHas_mapDelete {α : Type} (m : JsMap α) (k q : String) :
    mapHas (mapDelete m k) q = (!(k == q) && mapHas m q) := by
  induction m with
  | nil => simp [mapHas, mapDelete]
  | cons p m ih =>
    unfold mapDelete at *
    rw [List.filter_cons]
    cases hp : p.1 == k with
    | true =>
      have hpk : p.1 = k := eq_of_beq hp
      simp only [hp, Bool.not_true, Bool.false_eq_true, if_false]
      rw [ih, mapHas_cons]
      cases hkq : k == q with
      | true => simp
      | false =>
        have hpq : (p.1 == q) = false := by rw [hpk]; exact hkq
        simp [hpq]
    | false =>
      simp only [hp, Bool.not_false, if_true]
      rw [mapHas_cons, mapHas_cons, ih]
      cases hpq : p.1 == q with
      | true =>
        cases hkq : k == q with
        | true =>
          have hpk : p.1 = k := by rw [eq_of_beq hpq, eq_of_beq hkq]
          rw [hpk] at hp
          simp at hp
        | false => simp
      | false => simp

theorem mapGet_cons_pos {α : Type} (p : String × α) (m : JsMap α) (k : String)
    (h : (p.1 == k) = true) : mapGet (p :: m) k = some p.2 := by
  unfold mapGet
  rw [List.find?_cons, h]
  rfl

theorem mapGet_cons_neg {α : Type} (p : String × α) (m : JsMap α) (k : String)
    (h : (p.1 == k) = false) : mapGet (p :: m) k = mapGet m k := by
  unfold mapGet
  rw [List.find?_cons, h]

theorem isSome_mapGet {α : Type} (m : JsMap α) (k : String) :
    (mapGet m k).isSome = mapHas m k := by
  induction m with
  | nil => rfl
  | cons p m ih =>
    cases hp : p.1 == k with
    | true => rw [mapGet_cons_pos p m k hp, mapHas_cons, hp]; rfl
    | false => rw [mapGet_cons_neg p m k hp, mapHas_cons, hp, ih]; simp

theorem mapGet_eq_none_of_not_has {α : Type} (m : JsMap α) (k : String)
    (h : mapHas m k = false) : mapGet m k = none := by
  have hs := isSome_mapGet m k
  rw [h] at hs
  cases hg : mapGet m k with
  | none => rfl
  | some v => rw [hg] at hs; simp at hs

theorem mapHas_keyCopy {α β : Type} (m : JsMap α) (c : β) (k : String) :
    mapHas (m.map (fun entry => (entry.1, c))) k = mapHas m k := by
  induction m with
  | nil => rfl
  | cons p m ih =>
    simp only [List.map_cons, mapHas_cons] at *
    rw [ih]

/-! ## Concrete records used by the claims -/

/-- Component record that passes the stale and id checks but carries no
msg field. -/
def missingMsgRecord : JsonEntry :=
  { type := some "component", timestamp := some 100, id := some "m1" }

/-- Chat record below the watermark that carries no message text. -/
def staleChatMissingMessage : JsonEntry := { type := some "chat", timestamp := some 40 }

/-- Complete chat record below the watermark. -/
def staleChatComplete : JsonEntry :=
  { type := some "chat", message := some "hello", timestamp := some 40, source := some "player" }

/-- Set-level component update for a set the model does not hold. -/
def setUpdatedOrphanRecord : JsonEntry :=
  { type := some "component", msg := some "setupdated", id := some "s1" }

/-- Classifier output with nothing accepted. -/
def emptyUpdates : DynmapUpdates := { markerSets := [], tiles := [], chat := [] }

/-! ## Claim C1 -/

/-- C1: the claim states that buildUpdates never raises for malformed
records, in particular for a component record that passes the stale and
id checks but lacks a msg field.  The code contradicts it: on that record
the classifier reads startsWith of an undefined msg and throws, so the
whole classification aborts with an error instead of counting a drop
reason. -/
theorem buildUpdates_throws_on_missing_component_msg :
    buildUpdates 50 [missingMsgRecord] = Except.error "TypeError: entry.msg is undefined" := rfl

/-! ## Claim C2 -/

/-- C2 counterexample: a chat record with timestamp 40, strictly below the
nonzero watermark 50, that lacks its message text is counted under
incomplete, not under stale, refuting the claim that every record below a
nonzero watermark increments the stale counter regardless of which other
fields it is missing. -/
theorem stale_chat_without_message_counts_incomplete :
    tsLt staleChatMissingMessage.timestamp 50 = true ∧
    buildUpdates 50 [staleChatMissingMessage] =
      Except.ok (emptyUpdates, { incomplete := 1 }) := ⟨rfl, rfl⟩

/-- C2 (amended): a record whose timestamp is strictly below a nonzero
watermark and which passes the required-field checks that precede its
stale check (none for component records; truthy message and timestamp for
chat; truthy account and timestamp for playerjoin and playerquit; truthy
name and timestamp for tile) is classified by incrementing the stale
counter exactly once, with the delta buckets, the tile list, the chat
list, every other drop counter and the accepted count unchanged. -/
theorem stale_record_drop (w t : Nat) (acc : BuildAcc) (e : JsonEntry)
    (hw : w ≠ 0) (ht : e.timestamp = some t) (hlt : t < w)
    (hty : e.type = some "component" ∨
      ((e.type = some "chat" ∧ truthyS e.message = true ∨
        e.type = some "playerjoin" ∧ truthyS e.account = true ∨
        e.type = some "playerquit" ∧ truthyS e.account = true ∨
        e.type = some "tile" ∧ truthyS e.name = true) ∧ t ≠ 0)) :
    processEntry w acc e = Except.ok (dropStale acc) := by
  have hlt2 : tsLt e.timestamp w = true := by rw [ht]; simpa [tsLt] using hlt
  have hw2 : (w != 0) = true := by simpa using hw
  rcases hty with hc | ⟨hty, htz⟩
  · simp [processEntry, hc, processComponent, hw2, hlt2]
  · have htn : truthyN e.timestamp = true := by rw [ht]; simpa [truthyN] using htz
    rcases hty with ⟨hc, hm⟩ | ⟨hc, hm⟩ | ⟨hc, hm⟩ | ⟨hc, hm⟩
    · simp [processEntry, hc, processChat, hm, htn, hlt2]
    · simp [processEntry, hc, processPlayerJoin, hm, htn, hlt2]
    · simp [processEntry, hc, processPlayerQuit, hm, htn, hlt2]
    · simp [processEntry, hc, processTile, hm, htn, hlt2, hw2]

/-- C2 witness: the amended statement applied to a complete chat record
with timestamp 40 under watermark 50. -/
theorem stale_record_drop_witness :
    processEntry 50 initAcc staleChatComplete = Except.ok (dropStale initAcc) :=
  stale_record_drop 50 40 initAcc staleChatComplete (by decide) rfl (by decide)
    (Or.inr ⟨Or.inl ⟨rfl, rfl⟩, by decide⟩)

/-! ## Claim C3 -/

/-- C3: a setupdated component record whose set is absent from the model
and which carries no creation payload is dropped by classification (under
the unknownCType counter, since it carries no ctype either) so the set is
never created by the batch, and, in general, reconciliation of a bucket
without a set-level payload for a missing set skips the bucket entirely:
no set is ever fabricated from entity deltas alone. -/
theorem orphan_set_update_never_creates_set (w : Nat) (st : State)
    (bucket : DynmapMarkerSetUpdates)
    (hpay : bucket.payload = none) (hhas : mapHas st.markerSets "s1" = false) :
    buildUpdates w [setUpdatedOrphanRecord] =
      Except.ok (emptyUpdates, { unknownCType := 1 }) ∧
    applyBatch st emptyUpdates = Except.ok st ∧
    ADD_MARKER_SET_UPDATES st [("s1", bucket)] = Except.ok st := by
  refine ⟨?_, ?_, ?_⟩
  · have hs : strStartsWith "setupdated" "set" = true := rfl
    simp [buildUpdates, buildUpdatesRaw, buildUpdatesLoop, processEntry, processComponent,
      setUpdatedOrphanRecord, tsLt, truthyS, emptyUpdates, chatSort, hs, initAcc,
      dropUnknownCType]
  · simp [applyBatch, ADD_MARKER_SET_UPDATES, addMarkerSetUpdatesGo, ADD_TILE_UPDATES,
      ADD_CHAT, emptyUpdates]
  · simp [ADD_MARKER_SET_UPDATES, addMarkerSetUpdatesGo, addOneMarkerSetUpdate, hhas, hpay]

/-- C3 witness: the theorem at watermark 3, the empty store state and the
empty bucket. -/
theorem orphan_set_update_never_creates_set_witness :
    buildUpdates 3 [setUpdatedOrphanRecord] =
      Except.ok (emptyUpdates, { unknownCType := 1 }) ∧
    applyBatch {} emptyUpdates = Except.ok ({} : State) ∧
    ADD_MARKER_SET_UPDATES {} [("s1", emptyBucket)] = Except.ok ({} : State) :=
  orphan_set_update_never_creates_set 3 {} emptyBucket rfl rfl

/-! ## Claim C5 -/

theorem setPlayersAsyncGo_eq (l : List DynmapPlayer) (reg : JsMap DynmapPlayer) (c : Nat)
    (hc : c < 10) :
    setPlayersAsyncGo reg l c = ((l.take (10 - c)).foldl upsertPlayer reg, l.drop (10 - c)) := by
  induction l generalizing reg c with
  | nil => simp [setPlayersAsyncGo]
  | cons p rest ih =>
    unfold setPlayersAsyncGo
    by_cases h9 : c + 1 ≥ 10
    · have hc9 : c = 9 := by omega
      subst hc9
      simp [h9]
    · have hsub : 10 - c = (10 - (c + 1)) + 1 := by omega
      rw [hsub]
      simp only [List.take_succ_cons, List.foldl_cons, List.drop_succ_cons]
      rw [if_neg h9]
      exact ih (upsertPlayer reg p) (c + 1) (by omega)

def mkAccount (i : Nat) : String := "p" ++ toString i

def mkPlayer (i : Nat) : DynmapPlayer :=
  { account := mkAccount i, health := i, armor := 0, name := mkAccount i, sort := 0,
    hidden := some false, location := { x := 0, y := 64, z := 0, world := some "world" } }

/-- Input of 25 player snapshots with distinct accounts. -/
def players25 : List DynmapPlayer := (List.range 25).map mkPlayer

def playersRound1 : JsMap DynmapPlayer × List DynmapPlayer := SET_PLAYERS_ASYNC [] players25

def playersRound2 : JsMap DynmapPlayer × List DynmapPlayer :=
  SET_PLAYERS_ASYNC playersRound1.1 playersRound1.2

def playersRound3 : JsMap DynmapPlayer × List DynmapPlayer :=
  SET_PLAYERS_ASYNC playersRound2.1 playersRound2.2

/-- C5: SET_PLAYERS_ASYNC upserts exactly the first 10 snapshots of its
input (so never more than 10) and returns the rest, and on 25 distinct
accounts three successive calls leave remainders of sizes 15, 5 and 0 and
a registry of exactly 25 entries, each carrying the fields of its
snapshot. -/
theorem setPlayersAsync_batches :
    (∀ reg ps, SET_PLAYERS_ASYNC reg ps = ((ps.take 10).foldl upsertPlayer reg, ps.drop 10)) ∧
    playersRound1.2.length = 15 ∧ playersRound2.2.length = 5 ∧ playersRound3.2 = [] ∧
    playersRound3.1.length = 25 ∧
    ((List.range 25).all fun i =>
      mapGet playersRound3.1 (mkAccount i) == some (mkPlayer i)) = true := by
  refine ⟨fun reg ps => ?_, by decide, by decide, by decide, by decide, by decide⟩
  have h := setPlayersAsyncGo_eq ps reg 0 (by omega)
  simpa [SET_PLAYERS_ASYNC] using h

/-! ## Claim C7 -/

theorem mapHas_of_mapHas_filter {α : Type} (m : JsMap α) (Q : String × α → Bool) (k : String)
    (h : mapHas (m.filter Q) k = true) : mapHas m k = true := by
  rw [mapHas, List.any_eq_true] at h ⊢
  obtain ⟨x, hx, hpx⟩ := h
  exact ⟨x, List.mem_of_mem_filter hx, hpx⟩

theorem mapGet_filter_none {α : Type} (m : JsMap α) (Q : String × α → Bool) (k : String)
    (h : mapGet m k = none) : mapGet (m.filter Q) k = none := by
  apply mapGet_eq_none_of_not_has
  cases hh : mapHas (m.filter Q) k with
  | false => rfl
  | true =>
    exfalso
    have hm := mapHas_of_mapHas_filter m Q k hh
    have h2 := isSome_mapGet m k
    rw [h, hm] at h2
    simp at h2

theorem keyUnique {α : Type} (m : JsMap α) (hnd : (m.map Prod.fst).Nodup)
    (e1 e2 : String × α) (h1 : e1 ∈ m) (h2 : e2 ∈ m) (hk : e1.1 = e2.1) : e1 = e2 := by
  induction m with
  | nil => cases h1
  | cons p rest ih =>
    rw [List.map_cons, List.nodup_cons] at hnd
    rcases List.mem_cons.mp h1 with rfl | h1m
    · rcases List.mem_cons.mp h2 with rfl | h2m
      · rfl
      · exact absurd (hk ▸ List.mem_map_of_mem Prod.fst h2m) hnd.1
    · rcases List.mem_cons.mp h2 with rfl | h2m
      · exact absurd (hk ▸ List.mem_map_of_mem Prod.fst h1m) hnd.1
      · exact ih hnd.2 h1m h2m

theorem syncPlayersGo_eq (keep : List String) (l : List (String × DynmapPlayer))
    (acc : JsMap DynmapPlayer) :
    syncPlayersGo keep l acc =
      acc.filter
        (fun e => !(l.any (fun kp => e.1 == kp.1 && !(keep.contains kp.2.account)))) := by
  induction l generalizing acc with
  | nil => simp [syncPlayersGo]
  | cons kp rest ih =>
    unfold syncPlayersGo
    cases hk : keep.contains kp.2.account with
    | true =>
      rw [if_pos rfl, ih]
      apply List.filter_congr
      intro a _
      simp [List.any_cons, hk]
      intro _
      exact Or.inr (by simpa using hk)
    | false =>
      rw [if_neg (by simp), ih]
      unfold mapDelete
      rw [List.filter_filter]
      apply List.filter_congr
      intro a _
      simp only [List.any_cons, hk, Bool.not_false, Bool.and_true]
      cases h1 : a.1 == kp.1 <;>
        cases h2 : rest.any fun kp => a.1 == kp.1 && !(keep.contains kp.2.account) <;>
        simp [h1, h2]

theorem mapGet_filter_value {α : Type} (Q : α → Bool) (m : JsMap α)
    (hnd : (m.map Prod.fst).Nodup) (k : String) :
    mapGet (m.filter (fun e => Q e.2)) k =
      (mapGet m k).bind (fun v => if Q v then some v else none) := by
  induction m with
  | nil => rfl
  | cons p rest ih =>
    rw [List.map_cons, List.nodup_cons] at hnd
    rw [List.filter_cons]
    cases hp : p.1 == k with
    | true =>
      rw [mapGet_cons_pos p rest k hp]
      cases hq : Q p.2 with
      | true =>
        rw [if_pos rfl, mapGet_cons_pos p _ k hp]
        simp [hq]
      | false =>
        rw [if_neg (by simp)]
        have hrest : mapGet rest k = none := by
          apply mapGet_eq_none_of_not_has
          cases hh : mapHas rest k with
          | false => rfl
          | true =>
            exfalso
            rw [mapHas, List.any_eq_true] at hh
            obtain ⟨x, hx, hpx⟩ := hh
            have hmem : x.1 ∈ rest.map Prod.fst := List.mem_map_of_mem Prod.fst hx
            rw [eq_of_beq hpx, ← eq_of_beq hp] at hmem
            exact hnd.1 hmem
        rw [mapGet_filter_none rest _ k hrest]
        simp [hq]
    | false =>
      rw [mapGet_cons_neg p rest k hp]
      cases hq : Q p.2 with
      | true => rw [if_pos rfl, mapGet_cons_neg p _ k hp]; exact ih hnd.2
      | false => rw [if_neg (by simp)]; exact ih hnd.2

/-- C7: SYNC_PLAYERS deletes exactly the registry entries whose account
the keep set lacks; every entry whose account is kept is returned
unchanged by lookup. -/
theorem sync_players_prune (reg : JsMap DynmapPlayer) (keep : List String)
    (hnd : (reg.map Prod.fst).Nodup) :
    ∀ k, mapGet (SYNC_PLAYERS reg keep) k =
      (mapGet reg k).bind (fun p => if keep.contains p.account then some p else none) := by
  have hfilter : SYNC_PLAYERS reg keep = reg.filter (fun e => keep.contains e.2.account) := by
    rw [SYNC_PLAYERS, syncPlayersGo_eq]
    apply List.filter_congr
    intro e he
    cases hc : keep.contains e.2.account with
    | true =>
      rw [Bool.not_eq_true', List.any_eq_false]
      intro kp hkp
      cases h1 : e.1 == kp.1 with
      | false => simp [h1]
      | true =>
        have heq : e = kp := keyUnique reg hnd e kp he hkp (eq_of_beq h1)
        subst heq
        simp [hc]
        exact (by simpa using hc)
    | false =>
      rw [Bool.not_eq_false', List.any_eq_true]
      refine ⟨e, he, ?_⟩
      simp [hc]
      exact (by simpa using hc)
  rw [hfilter]
  exact fun k => mapGet_filter_value (fun p => keep.contains p.account) reg hnd k

/-- Registry entry used to witness the prune characterisation. -/
def alicePlayer : DynmapPlayer :=
  { account := "alice", health := 1, armor := 2, name := "Alice", sort := 0
    hidden := some false, location := { x := 0, y := 0, z := 0, world := some "world" } }

/-- Second registry entry used to witness the prune characterisation. -/
def bobPlayer : DynmapPlayer :=
  { account := "bob", health := 3, armor := 4, name := "Bob", sort := 0
    hidden := some false, location := { x := 0, y := 0, z := 0, world := some "world" } }

/-- Two-entry registry used to witness the prune characterisation. -/
def pruneDemoReg : JsMap DynmapPlayer := [("alice", alicePlayer), ("bob", bobPlayer)]

/-- C7 witness: the prune characterisation at a concrete registry and
keep set. -/
theorem sync_players_prune_witness :
    mapGet (SYNC_PLAYERS pruneDemoReg ["alice"]) "bob" =
      (mapGet pruneDemoReg "bob").bind
        (fun p => if ["alice"].contains p.account then some p else none) :=
  sync_players_prune pruneDemoReg ["alice"] (by decide) "bob"

/-! ## Claim C6 -/

/-- C6: when a bucket marks an existing set as removed, reconciliation
deletes the set (with its entity maps) and its pending-queue entry in the
same step, processes none of the bucket entity updates, and afterwards no
pending queue exists for the id. -/
theorem remove_set_deletes_set_and_queue (st : State) (id : String)
    (bucket : DynmapMarkerSetUpdates)
    (hhas : mapHas st.markerSets id = true) (hrem : bucket.removed = true) :
    ADD_MARKER_SET_UPDATES st [(id, bucket)] =
      Except.ok { st with
        markerSets := mapDelete st.markerSets id
        pendingSetUpdates := mapDelete st.pendingSetUpdates id } ∧
    mapHas (mapDelete st.pendingSetUpdates id) id = false := by
  constructor
  · simp [ADD_MARKER_SET_UPDATES, addMarkerSetUpdatesGo, addOneMarkerSetUpdate, hhas,
      addExistingSetUpdate, hrem]
  · rw [mapHas_mapDelete]
    simp

/-- Marker set used by the removal witness. -/
def demoSet : DynmapMarkerSet :=
  { id := "a", label := "Demo", hidden := false, priority := 0, showLabels := none
    minZoom := none, maxZoom := none, markers := [], areas := [], circles := [], lines := [] }

/-- State holding one set with its pending queue. -/
def demoState : State :=
  { markerSets := [("a", demoSet)], pendingSetUpdates := [("a", emptyPending)] }

/-- Removal bucket that also carries an entity update, which deletion must
skip. -/
def removalBucket : DynmapMarkerSetUpdates :=
  { removed := true
    markerUpdates := [{ id := "m1", removed := false, payload := some defaultMarker }] }

/-- C6 witness: deleting the only set of a concrete state removes the set
and its queue and ignores the bucket entity update. -/
theorem remove_set_deletes_set_and_queue_witness :
    ADD_MARKER_SET_UPDATES demoState [("a", removalBucket)] =
      Except.ok { demoState with
        markerSets := mapDelete demoState.markerSets "a"
        pendingSetUpdates := mapDelete demoState.pendingSetUpdates "a" } ∧
    mapHas (mapDelete demoState.pendingSetUpdates "a") "a" = false :=
  remove_set_deletes_set_and_queue demoState "a" removalBucket rfl rfl

/-! ## Claim C4 -/

theorem processEntry_stale_drops (w : Nat) (acc : BuildAcc) (e : JsonEntry)
    (hw : w ≠ 0) (hts : tsLt e.timestamp w = true) :
    ∃ d, processEntry w acc e = Except.ok { acc with dropped := d } := by
  have hw2 : (w != 0) = true := by simpa using hw
  unfold processEntry
  split_ifs with h1 h2 h3 h4 h5
  · exact ⟨(dropStale acc).dropped, by simp [processComponent, hw2, hts, dropStale]⟩
  · cases hic : (!(truthyS e.message) || !(truthyN e.timestamp)) with
    | true => exact ⟨(dropIncomplete acc).dropped, by simp [processChat, hic, dropIncomplete]⟩
    | false => exact ⟨(dropStale acc).dropped, by simp [processChat, hic, hts, dropStale]⟩
  · cases hic : (!(truthyS e.account) || !(truthyN e.timestamp)) with
    | true =>
      exact ⟨(dropIncomplete acc).dropped, by simp [processPlayerJoin, hic, dropIncomplete]⟩
    | false => exact ⟨(dropStale acc).dropped, by simp [processPlayerJoin, hic, hts, dropStale]⟩
  · cases hic : (!(truthyS e.account) || !(truthyN e.timestamp)) with
    | true =>
      exact ⟨(dropIncomplete acc).dropped, by simp [processPlayerQuit, hic, dropIncomplete]⟩
    | false => exact ⟨(dropStale acc).dropped, by simp [processPlayerQuit, hic, hts, dropStale]⟩
  · cases hic : (!(truthyS e.name) || !(truthyN e.timestamp)) with
    | true => exact ⟨(dropIncomplete acc).dropped, by simp [processTile, hic, dropIncomplete]⟩
    | false =>
      exact ⟨(dropStale acc).dropped, by simp [processTile, hic, hw2, hts, dropStale]⟩
  · exact ⟨(dropUnknownType acc).dropped, by simp [dropUnknownType]⟩

theorem buildUpdatesLoop_stale (w : Nat) (l : List JsonEntry) (acc : BuildAcc)
    (hw : w ≠ 0) (hall : l.all (fun e => tsLt e.timestamp w) = true) :
    ∃ d, buildUpdatesLoop w l acc = Except.ok { acc with dropped := d } := by
  induction l generalizing acc with
  | nil => exact ⟨acc.dropped, rfl⟩
  | cons e rest ih =>
    rw [List.all_cons, Bool.and_eq_true] at hall
    obtain ⟨d1, h1⟩ := processEntry_stale_drops w acc e hw hall.1
    obtain ⟨d2, h2⟩ := ih { acc with dropped := d1 } hall.2
    refine ⟨d2, ?_⟩
    unfold buildUpdatesLoop
    rw [h1]
    exact h2

/-- Drop counters of a classification result. -/
def droppedOf (r : Except String (DynmapUpdates × Dropped)) : Dropped :=
  match r with
  | Except.ok (_, d) => d
  | Except.error _ => {}

/-- C4: a batch whose records all carry a timestamp strictly below the
nonzero watermark classifies to empty delta buckets, an empty tile list
and an empty chat list (only drop counters move), and reconciling that
empty result changes nothing: marker sets, entity maps, pending queues,
the pending tile list and the chat history of any state are unchanged. -/
theorem stale_batch_idempotent (w : Nat) (batch : List JsonEntry) (st : State)
    (hw : w ≠ 0) (hall : batch.all (fun e => tsLt e.timestamp w) = true) :
    buildUpdates w batch = Except.ok (emptyUpdates, droppedOf (buildUpdates w batch)) ∧
    applyBatch st emptyUpdates = Except.ok st := by
  obtain ⟨d, h⟩ := buildUpdatesLoop_stale w batch initAcc hw hall
  have hb : buildUpdates w batch = Except.ok (emptyUpdates, d) := by
    unfold buildUpdates buildUpdatesRaw
    rw [h]
    simp [initAcc, emptyUpdates, chatSort]
  rw [hb]
  constructor
  · simp [droppedOf]
  · simp [applyBatch, ADD_MARKER_SET_UPDATES, addMarkerSetUpdatesGo, ADD_TILE_UPDATES,
      ADD_CHAT, emptyUpdates]

/-- Batch of already-applied records of all five type tags, every
timestamp below watermark 50. -/
def staleBatch : List JsonEntry :=
  [{ type := some "chat", message := some "old", timestamp := some 40, source := some "player" },
   { type := some "component", timestamp := some 10, id := some "m" },
   { type := some "tile", name := some "t", timestamp := some 20 },
   { type := some "playerjoin", account := some "x", timestamp := some 5 },
   { type := some "bogus", timestamp := some 7 }]

/-- C4 witness: redelivering the concrete stale batch at watermark 50
against a populated state mutates nothing. -/
theorem stale_batch_idempotent_witness :
    buildUpdates 50 staleBatch = Except.ok (emptyUpdates, droppedOf (buildUpdates 50 staleBatch)) ∧
    applyBatch demoState emptyUpdates = Except.ok demoState :=
  stale_batch_idempotent 50 staleBatch demoState (by decide) (by decide)

/-! ## Claim C8 -/

theorem chatInsert_mem (c : DynmapChat) (l : List DynmapChat) (x : DynmapChat)
    (h : x ∈ chatInsert c l) : x = c ∨ x ∈ l := by
  induction l with
  | nil => simpa [chatInsert] using h
  | cons d rest ih =>
    unfold chatInsert at h
    by_cases hd : d.timestamp > c.timestamp
    · rw [if_pos hd] at h
      rcases List.mem_cons.mp h with rfl | h2
      · exact Or.inr (List.mem_cons_self _ _)
      · rcases ih h2 with h3 | h3
        · exact Or.inl h3
        · exact Or.inr (List.mem_cons_of_mem _ h3)
    · rw [if_neg hd] at h
      rcases List.mem_cons.mp h with rfl | h2
      · exact Or.inl rfl
      · exact Or.inr h2

theorem chatInsert_pairwise (c : DynmapChat) (l : List DynmapChat)
    (h : l.Pairwise (fun a b => b.timestamp ≤ a.timestamp)) :
    (chatInsert c l).Pairwise (fun a b => b.timestamp ≤ a.timestamp) := by
  induction l with
  | nil => simp [chatInsert]
  | cons d rest ih =>
    rw [List.pairwise_cons] at h
    unfold chatInsert
    by_cases hd : d.timestamp > c.timestamp
    · rw [if_pos hd, List.pairwise_cons]
      constructor
      · intro x hx
        rcases chatInsert_mem c rest x hx with rfl | h2
        · omega
        · exact h.1 x h2
      · exact ih h.2
    · rw [if_neg hd, List.pairwise_cons]
      constructor
      · intro x hx
        rcases List.mem_cons.mp hx with rfl | h2
        · omega
        · have := h.1 x h2
          omega
      · exact List.pairwise_cons.mpr h

theorem chatInsert_filter_eq (c : DynmapChat) (l : List DynmapChat) :
    (chatInsert c l).filter (fun x => x.timestamp == c.timestamp) =
      c :: l.filter (fun x => x.timestamp == c.timestamp) := by
  induction l with
  | nil => simp [chatInsert, List.filter]
  | cons d rest ih =>
    unfold chatInsert
    by_cases hd : d.timestamp > c.timestamp
    · rw [if_pos hd, List.filter_cons]
      have hdt : (d.timestamp == c.timestamp) = false := by
        simp only [beq_eq_false_iff_ne, ne_eq]
        omega
      rw [List.filter_cons, hdt, ih]
      simp [hdt]
    · rw [if_neg hd, List.filter_cons]
      simp

theorem chatInsert_filter_ne (c : DynmapChat) (l : List DynmapChat) (t : Nat)
    (hne : (c.timestamp == t) = false) :
    (chatInsert c l).filter (fun x => x.timestamp == t) =
      l.filter (fun x => x.timestamp == t) := by
  induction l with
  | nil => simp [chatInsert, List.filter, hne]
  | cons d rest ih =>
    unfold chatInsert
    by_cases hd : d.timestamp > c.timestamp
    · rw [if_pos hd, List.filter_cons, List.filter_cons]
      cases hdt : d.timestamp == t <;> simp [hdt, ih]
    · rw [if_neg hd, List.filter_cons]
      simp [hne]

theorem chatSort_filter (l : List DynmapChat) (t : Nat) :
    (chatSort l).filter (fun x => x.timestamp == t) = l.filter (fun x => x.timestamp == t) := by
  induction l with
  | nil => rfl
  | cons c rest ih =>
    unfold chatSort
    cases hct : c.timestamp == t with
    | true =>
      have hc : c.timestamp = t := eq_of_beq hct
      subst hc
      rw [chatInsert_filter_eq, ih, List.filter_cons]
      simp
    | false =>
      rw [chatInsert_filter_ne _ _ _ hct, ih, List.filter_cons]
      simp [hct]

theorem chatSort_pairwise (l : List DynmapChat) :
    (chatSort l).Pairwise (fun a b => b.timestamp ≤ a.timestamp) := by
  induction l with
  | nil => simp [chatSort]
  | cons c rest ih => exact chatInsert_pairwise c (chatSort rest) ih

/-- C8: the chat list of every classification result is the stable
descending sort of the accepted events in arrival order: it is pairwise
sorted newest first, and for every timestamp the events carrying it keep
their relative arrival order. -/
theorem chat_sorted_stable (w : Nat) (data : List JsonEntry) (acc : BuildAcc)
    (h : buildUpdatesRaw w data = Except.ok acc) :
    buildUpdates w data =
      Except.ok ({ acc.updates with chat := chatSort acc.updates.chat }, acc.dropped) ∧
    (chatSort acc.updates.chat).Pairwise (fun a b => b.timestamp ≤ a.timestamp) ∧
    ∀ t, (chatSort acc.updates.chat).filter (fun x => x.timestamp == t) =
      acc.updates.chat.filter (fun x => x.timestamp == t) := by
  refine ⟨?_, chatSort_pairwise _, fun t => chatSort_filter _ t⟩
  unfold buildUpdates
  rw [h]

/-- Batch of two equal-timestamp chat records and a later join. -/
def chatBatch : List JsonEntry :=
  [{ type := some "chat", message := some "a", timestamp := some 100, source := some "player" },
   { type := some "chat", message := some "b", timestamp := some 100, source := some "web" },
   { type := some "playerjoin", account := some "x", timestamp := some 200 }]

/-- Classification accumulator of chatBatch before the final sort. -/
def chatBatchAcc : BuildAcc :=
  { updates :=
      { markerSets := []
        tiles := []
        chat :=
          [{ type := "chat", source := some "player", message := some "a", timestamp := 100 },
           { type := "chat", source := some "web", message := some "b", timestamp := 100 },
           { type := "playerjoin", playerAccount := some "x", playerName := some "",
             timestamp := 200 }] }
    dropped := {}
    accepted := 0 }

/-- C8 witness: the sortedness and stability statement at the concrete
three-event batch. -/
theorem chat_sorted_stable_witness :
    buildUpdates 0 chatBatch =
      Except.ok ({ chatBatchAcc.updates with chat := chatSort chatBatchAcc.updates.chat },
        chatBatchAcc.dropped) ∧
    (chatSort chatBatchAcc.updates.chat).Pairwise (fun a b => b.timestamp ≤ a.timestamp) ∧
    ∀ t, (chatSort chatBatchAcc.updates.chat).filter (fun x => x.timestamp == t) =
      chatBatchAcc.updates.chat.filter (fun x => x.timestamp == t) :=
  chat_sorted_stable 0 chatBatch chatBatchAcc rfl

/-! ## Claim C9 -/

/-- Invariant of the store: the pending-queue map and the marker-set map
carry exactly the same keys. -/
def keySync (st : State) : Prop :=
  ∀ k, mapHas st.markerSets k = mapHas st.pendingSetUpdates k

theorem addExisting_keySync (st : State) (key : String) (u : DynmapMarkerSetUpdates)
    (h : keySync st) (hhas : mapHas st.markerSets key = true) :
    ∃ st2, addExistingSetUpdate st key u = Except.ok st2 ∧ keySync st2 := by
  unfold addExistingSetUpdate
  cases hrem : u.removed with
  | true =>
    simp only [if_pos rfl]
    refine ⟨_, rfl, ?_⟩
    intro k
    rw [mapHas_mapDelete, mapHas_mapDelete, h k]
  | false =>
    obtain ⟨set0, hset⟩ : ∃ s, mapGet st.markerSets key = some s := by
      have hs := isSome_mapGet st.markerSets key
      rw [hhas] at hs
      exact Option.isSome_iff_exists.mp hs
    obtain ⟨q, hq⟩ : ∃ q, mapGet st.pendingSetUpdates key = some q := by
      have hs := isSome_mapGet st.pendingSetUpdates key
      rw [← h key, hhas] at hs
      exact Option.isSome_iff_exists.mp hs
    rw [hset, hq]
    simp only [Bool.false_eq_true, if_false]
    refine ⟨_, rfl, ?_⟩
    intro k
    rw [mapHas_mapSet, mapHas_mapSet, h k]

theorem addOne_keySync (st : State) (key : String) (u : DynmapMarkerSetUpdates)
    (h : keySync st) :
    ∃ st2, addOneMarkerSetUpdate st key u = Except.ok st2 ∧ keySync st2 := by
  unfold addOneMarkerSetUpdate
  cases hhas : mapHas st.markerSets key with
  | true =>
    simp only [if_pos rfl]
    exact addExisting_keySync st key u h hhas
  | false =>
    simp only [Bool.false_eq_true, if_false]
    cases hpay : u.payload with
    | none => exact ⟨st, rfl, h⟩
    | some payload =>
      have hsync2 : keySync
          { st with
            markerSets := mapSet st.markerSets key (newSetFromPayload key payload)
            pendingSetUpdates := mapSet st.pendingSetUpdates key emptyPending } := by
        intro k
        rw [mapHas_mapSet, mapHas_mapSet, h k]
      have hhas2 :
          mapHas (mapSet st.markerSets key (newSetFromPayload key payload)) key = true := by
        rw [mapHas_mapSet]
        simp
      exact addExisting_keySync _ key u hsync2 hhas2

theorem addGo_keySync (updates : List (String × DynmapMarkerSetUpdates)) (st : State)
    (h : keySync st) :
    ∃ st2, addMarkerSetUpdatesGo updates st = Except.ok st2 ∧ keySync st2 := by
  induction updates generalizing st with
  | nil => exact ⟨st, rfl, h⟩
  | cons p rest ih =>
    obtain ⟨key, u⟩ := p
    obtain ⟨st1, h1, hs1⟩ := addOne_keySync st key u h
    obtain ⟨st2, h2, hs2⟩ := ih st1 hs1
    refine ⟨st2, ?_, hs2⟩
    unfold addMarkerSetUpdatesGo
    rw [h1]
    exact h2

/-- C9: from a state whose pending-queue map and marker-set map carry the
same keys, SET_MARKER_SETS, ADD_MARKER_SET_UPDATES (which also never
throws from such a state) and every successful SET_CURRENT_MAP preserve
that equality, and for every existing set the four pop mutations find
their queue, so their non-null lookups are safe. -/
theorem pending_queue_keys_match (st : State) (h : keySync st) :
    (∀ ms, keySync (SET_MARKER_SETS st ms)) ∧
    (∀ updates, ∃ st2, ADD_MARKER_SET_UPDATES st updates = Except.ok st2 ∧ keySync st2) ∧
    (∀ wn mn st2, SET_CURRENT_MAP st wn mn = Except.ok st2 → keySync st2) ∧
    (∀ k n, mapHas st.markerSets k = true →
      (POP_MARKER_UPDATES st k n).isOk = true ∧ (POP_AREA_UPDATES st k n).isOk = true ∧
      (POP_CIRCLE_UPDATES st k n).isOk = true ∧ (POP_LINE_UPDATES st k n).isOk = true) := by
  refine ⟨?_, ?_, ?_, ?_⟩
  · intro ms k
    unfold SET_MARKER_SETS
    simp only []
    rw [mapHas_keyCopy]
  · intro updates
    exact addGo_keySync updates st h
  · intro wn mn st2 heq
    simp only [SET_CURRENT_MAP] at heq
    cases hw1 : mapHas st.worlds wn with
    | false => rw [hw1] at heq; simp at heq
    | true =>
      rw [hw1] at heq
      cases hw2 : mapHas st.maps (wn ++ "_" ++ mn) with
      | false => rw [hw2] at heq; simp at heq
      | true =>
        rw [hw2] at heq
        simp only [Bool.not_true, Bool.false_eq_true, if_false] at heq
        by_cases hcw : st.currentWorld ≠ mapGet st.worlds wn
        · rw [if_pos hcw] at heq
          simp only [Except.ok.injEq] at heq
          subst heq
          intro k
          rfl
        · rw [if_neg hcw] at heq
          simp only [Except.ok.injEq] at heq
          subst heq
          intro k
          exact h k
  · intro k n hk
    obtain ⟨q, hq⟩ : ∃ q, mapGet st.pendingSetUpdates k = some q := by
      have hs := isSome_mapGet st.pendingSetUpdates k
      rw [← h k, hk] at hs
      exact Option.isSome_iff_exists.mp hs
    refine ⟨?_, ?_, ?_, ?_⟩ <;>
      · first
        | (unfold POP_MARKER_UPDATES; rw [hk, hq]; rfl)
        | (unfold POP_AREA_UPDATES; rw [hk, hq]; rfl)
        | (unfold POP_CIRCLE_UPDATES; rw [hk, hq]; rfl)
        | (unfold POP_LINE_UPDATES; rw [hk, hq]; rfl)

/-- C9 witness: the invariant statement at a concrete one-set state whose
maps carry the same key. -/
theorem pending_queue_keys_match_witness :
    (∀ ms, keySync (SET_MARKER_SETS demoState ms)) ∧
    (∀ updates, ∃ st2, ADD_MARKER_SET_UPDATES demoState updates = Except.ok st2 ∧ keySync st2) ∧
    (∀ wn mn st2, SET_CURRENT_MAP demoState wn mn = Except.ok st2 → keySync st2) ∧
    (∀ k n, mapHas demoState.markerSets k = true →
      (POP_MARKER_UPDATES demoState k n).isOk = true ∧
      (POP_AREA_UPDATES demoState k n).isOk = true ∧
      (POP_CIRCLE_UPDATES demoState k n).isOk = true ∧
      (POP_LINE_UPDATES demoState k n).isOk = true) :=
  pending_queue_keys_match demoState (fun _ => rfl)

/-! ## Claim C10 -/

/-- One player snapshot of the wire update response; a NaN or missing
coordinate is embedded as none. -/
structure RespPlayer where
  account : Option String := none
  health : Option Rat := none
  armor : Option Rat := none
  name : Option String := none
  sort : Option Rat := none
  world : Option String := none
  x : Option Rat := none
  y : Option Rat := none
  z : Option Rat := none
deriving Repr, DecidableEq

/-- Player built by getUpdate from one response snapshot: defaults
applied, x and z centred inside the block, hidden when no usable world. -/
def buildRealPlayer (p : RespPlayer) : DynmapPlayer :=
  let world :=
    match p.world with
    | some w => if w ≠ "" ∧ w ≠ "-some-other-bogus-world-" then some w else none
    | none => none
  { account := jsStr p.account ""
    health := jsRat p.health 0
    armor := jsRat p.armor 0
    name := jsStr p.name ""
    sort := jsRat p.sort 0
    hidden := some world.isNone
    location :=
      { x := match p.x with | some v => v + 1/2 | none => 0
        y := match p.y with | some v => v | none => 0
        z := match p.z with | some v => v + 1/2 | none => 0
        world := world } }

/-- Randomised fields of one synthetic test player, supplied as inputs
because Math.random is external to the embedding. -/
structure FakeRand where
  health : Nat
  armor : Nat
  x : Int
  z : Int
deriving Repr, DecidableEq

/-- Synthetic test player number i added by getUpdate: account and name
VIDEO GAMES i, world fixed, and no hidden field. -/
def fakePlayer (r : FakeRand) (i : Nat) : DynmapPlayer :=
  { account := "VIDEO GAMES " ++ toString i
    health := (r.health : Rat)
    armor := (r.armor : Rat)
    name := "VIDEO GAMES " ++ toString i
    sort := 0
    hidden := none
    location := { x := (r.x : Rat), y := 64, z := (r.z : Rat), world := some "world" } }

/-- Player set assembled by getUpdate: the response players followed by
the loop of 150 synthetic test players. -/
def getUpdatePlayers (resp : List RespPlayer) (rand : Nat → FakeRand) : List DynmapPlayer :=
  resp.map buildRealPlayer ++ (List.range 150).map (fun i => fakePlayer (rand i) i)

/-- C10: for every response and every draw of the randomised fields, the
player set of getUpdate holds the response players plus exactly 150
synthetic players, so its size exceeds the response player list by 150;
the extra entries are precisely fakePlayer 0 through 149, whose accounts
are VIDEO GAMES 0 through VIDEO GAMES 149, whose world is world, and
which carry no hidden flag. -/
theorem getUpdate_adds_150_fake_players (resp : List RespPlayer) (rand : Nat → FakeRand) :
    (getUpdatePlayers resp rand).length = resp.length + 150 ∧
    (getUpdatePlayers resp rand).drop resp.length =
      (List.range 150).map (fun i => fakePlayer (rand i) i) ∧
    ((List.range 150).all fun i =>
      ((fakePlayer (rand i) i).account == "VIDEO GAMES " ++ toString i) &&
      ((fakePlayer (rand i) i).location.world == some "world") &&
      ((fakePlayer (rand i) i).hidden == none)) = true := by
  refine ⟨?_, ?_, ?_⟩
  · simp [getUpdatePlayers]
  · rw [getUpdatePlayers,
      show resp.length = (resp.map buildRealPlayer).length from (List.length_map _ _).symm,
      List.drop_left]
  · rw [List.all_eq_true]
    intro i _
    simp [fakePlayer]
